import Mathlib

/-!
# TimeClock — verification of the time-sync / settings core

Shallow embedding of `src/TimeClockWindows.py` (the `TimeClockWindowsNotes.py`
file duplicates the same logic with extra commentary).

Modelling conventions:
* A `datetime` instant is a rational number of seconds since the epoch, UTC
  (`Rat`); a `timedelta` is likewise a rational number of seconds.  Python
  floats are modelled as exact rationals: every arithmetic step the code
  performs on them (sum of two offsets, difference of two instants) is plain
  field arithmetic.
* Calls to `dt.datetime.now(dt.UTC)` are inputs: each definition takes the
  clock reading at the corresponding program point as an explicit parameter.
* JSON values are the inductive `JVal`; `json.loads` failure and a missing or
  unreadable file are the `SettingsFile` constructors `malformed` / `missing`.
* Exceptions are modelled explicitly where the source catches them: a
  function that may raise returns its partial state together with an
  `Option PyError`, and the `try/except` of the caller is the `match` that
  discards the error component.
-/

namespace TimeClock

/-! ## Time-sync core: `fetch_ntp` (TimeClockWindows.py lines 67-93) -/

/-- Outcome of the HTTP HEAD request plus `Date`-header parse inside
`fetch_ntp`.  `ok s` means the response carried a `Date` header that
`email.utils.parsedate_to_datetime` parsed to instant `s`; the remaining
constructors are the four handled failure paths (`else` branch for a missing
header, and the `except` clauses for `Timeout`, `ConnectionError`, other
`RequestException`, and any other exception such as a header-parse error). -/
inductive FetchOutcome where
  | ok (serverInstant : Rat)
  | noDateHeader
  | timeout
  | connectionError
  | requestError
  | parseError
  deriving DecidableEq, Repr

/-- `true` on every non-`ok` outcome. -/
def FetchOutcome.isFailure : FetchOutcome → Bool
  | .ok _ => false
  | _ => true

/-- `fetch_ntp` (lines 67-93).  On `ok` it returns the parsed server instant;
on every failure path control falls through to
`local_utc_time = dt.datetime.now(dt.UTC); return local_utc_time`, so the
function returns the local UTC clock reading taken at that moment
(`localUtcAtFallback`).  The function is total: every exception the request
or the parse can raise is caught inside it, and no failure marker is
returned to the caller. -/
def fetch_ntp (o : FetchOutcome) (localUtcAtFallback : Rat) : Rat :=
  match o with
  | .ok serverInstant => serverInstant
  | _ => localUtcAtFallback

/-! ## Clock state (`DigitalClock.__init__`, lines 112-118) -/

/-- Red/green/blue channels of a `QColor` (the application only ever stores
fully-opaque RGB colors: the default `QColor("white")` and colors picked in
`QColorDialog`). -/
structure Color where
  r : Fin 256
  g : Fin 256
  b : Fin 256
  deriving DecidableEq, Repr

/-- The fields of `DigitalClock` the core reads and writes: display settings,
the two offsets, and the window position (`self.x(), self.y()`). -/
structure ClockState where
  time_pt : Rat
  spacing : Rat
  opacity : Rat
  topmost : Bool
  color : Color
  /-- `self.offset` — the network offset written by the NTP sync loop. -/
  offset : Rat
  /-- `self.manual_offset` — the user-entered offset. -/
  manual_offset : Rat
  /-- window position; the widget always has one (`self.x(), self.y()`). -/
  pos : Int × Int
  deriving DecidableEq, Repr

/-- lowercase hex digit, as `QColor.name()` prints it. -/
def hexDigit (n : Nat) : Char :=
  if n < 10 then Char.ofNat (48 + n) else Char.ofNat (87 + n)

/-- two-digit lowercase hex of a channel value. -/
def hexByte (n : Nat) : List Char :=
  [hexDigit (n / 16), hexDigit (n % 16)]

/-- `QColor.name()`: the `#rrggbb` lowercase-hex form. -/
def Color.name (c : Color) : String :=
  ⟨'#' :: (hexByte c.r ++ hexByte c.g ++ hexByte c.b)⟩

/-- value of one hex digit, `none` if the character is not a hex digit. -/
def hexDigitVal (ch : Char) : Option Nat :=
  if 48 ≤ ch.toNat ∧ ch.toNat ≤ 57 then some (ch.toNat - 48)
  else if 97 ≤ ch.toNat ∧ ch.toNat ≤ 102 then some (ch.toNat - 87)
  else if 65 ≤ ch.toNat ∧ ch.toNat ≤ 70 then some (ch.toNat - 55)
  else none

/-- `QColor(str)` construction.  The application only ever feeds it `#rrggbb`
strings (produced by `QColor.name()` in `_save`) or the named default
`"white"`; any string Qt cannot parse yields an invalid `QColor`, whose
`name()` is `#000000` — modelled as black. -/
def QColor_fromString (s : String) : Color :=
  match s.toList with
  | ['#', a, b, c, d, e, f] =>
    match hexDigitVal a, hexDigitVal b, hexDigitVal c,
          hexDigitVal d, hexDigitVal e, hexDigitVal f with
    | some va, some vb, some vc, some vd, some ve, some vf =>
      { r := Fin.ofNat' 256 (va * 16 + vb),
        g := Fin.ofNat' 256 (vc * 16 + vd),
        b := Fin.ofNat' 256 (ve * 16 + vf) }
    | _, _, _, _, _, _ => ⟨0, 0, 0⟩
  | _ =>
    if s = "white" then ⟨255, 255, 255⟩ else ⟨0, 0, 0⟩

/-- The defaults set in `DigitalClock.__init__` (lines 112-118): font 10 pt,
spacing 2 px, opacity 90 %, topmost, white text, both offsets 0.  The window
position before any `move` is toolkit-chosen; `(0, 0)` stands for it — no
claim depends on the default position's value. -/
def defaultState : ClockState :=
  { time_pt := 10, spacing := 2, opacity := 90, topmost := true,
    color := ⟨255, 255, 255⟩, offset := 0, manual_offset := 0, pos := (0, 0) }

/-! ## `_now` (lines 182-191) -/

/-- An aware `datetime`: the absolute instant together with the fixed-offset
zone it is expressed in.  `astimezone` changes only `zoneHours`, never
`instant`. -/
structure ZonedTime where
  instant : Rat
  zoneHours : Int
  deriving DecidableEq, Repr

/-- `DigitalClock._now` (lines 182-191): read the system UTC clock, add
`self.offset + self.manual_offset` seconds, convert to the hardcoded UTC+8
zone.  Pure: no field is written, nothing can raise. -/
def clockNow (st : ClockState) (systemUtc : Rat) : ZonedTime :=
  let current_utc := systemUtc
  let adjusted_utc := current_utc + (st.offset + st.manual_offset)
  { instant := adjusted_utc, zoneHours := 8 }

/-! ## `_ntp_loop` body (lines 284-297) -/

/-- One iteration of the `while True` body of `_ntp_loop` (lines 289-296,
the part inside `try`): call `fetch_ntp`, then read
`current_utc = dt.datetime.now(dt.UTC)` (taken *after* the fetch returned —
`localUtcAfterFetch`), and overwrite `self.offset` with the difference in
seconds.  `fetch_ntp` is total and the subtraction of two aware datetimes
cannot raise, so the `except` clause of the loop is not reached from this
body. -/
def ntpLoopBody (st : ClockState) (o : FetchOutcome)
    (localUtcAtFallback localUtcAfterFetch : Rat) : ClockState :=
  let ntp_dt := fetch_ntp o localUtcAtFallback
  let current_utc := localUtcAfterFetch
  { st with offset := ntp_dt - current_utc }

/-- One sync attempt with its full clock timeline.  `tBefore` is the local
UTC instant at which the iteration starts, before the HTTP request is issued;
the source takes *no* clock reading at that point — the parameter exists so
that claims about "the local instant before the request" can be stated.
`tFallback` is the reading `fetch_ntp` takes on its fallback path and
`tAfter` the reading `_ntp_loop` takes after `fetch_ntp` returns. -/
def ntpIterationTimed (st : ClockState) (o : FetchOutcome)
    (tBefore tFallback tAfter : Rat) : ClockState :=
  let _ := tBefore
  ntpLoopBody st o tFallback tAfter

/-! ## `_ntp_loop` scheduling (lines 284-297)

The loop alternates forever between running one attempt and sleeping:
`while True: try: <attempt> except: <log>; time.sleep(600)`.  The
`time.sleep(600)` sits outside the `try/except`, so it runs unconditionally
after every attempt.  We model the control flow as an explicit phase
sequence. -/

/-- Control point of the sync thread: running attempt `n`, or in the
`time.sleep(600)` that follows attempt `n`. -/
inductive LoopPhase where
  | attempting (n : Nat)
  | sleeping (n : Nat)
  deriving DecidableEq, Repr

/-- One control-flow step of `_ntp_loop`: an attempt is followed by the
sleep, and the sleep by the next attempt.  There is no exit edge: the loop
condition is the constant `True` and no `break`/`return` occurs in the
body. -/
def loopStep : LoopPhase → LoopPhase
  | .attempting n => .sleeping n
  | .sleeping n => .attempting (n + 1)

/-- The phase after `k` control-flow steps, starting at attempt 0. -/
def loopPhaseAt : Nat → LoopPhase
  | 0 => .attempting 0
  | k + 1 => loopStep (loopPhaseAt k)

/-- Wall-clock duration of a phase, given the duration `attemptDur n` of the
`n`-th attempt (bounded by the 5-second request timeout, but the bound is
irrelevant here).  A sleep phase always lasts 600 seconds —
`time.sleep(600)` takes no input from the attempt's outcome. -/
def phaseDuration (attemptDur : Nat → Rat) : LoopPhase → Rat
  | .attempting n => attemptDur n
  | .sleeping _ => 600

/-! ## Settings store: `_save` (lines 349-368) and `_load` (lines 370-415) -/

/-- A JSON value, as `json.loads` produces it (numbers are exact here: the
code only ever stores the floats and ints of the settings record). -/
inductive JVal where
  | num (q : Rat)
  | str (s : String)
  | bool (b : Bool)
  | arr (xs : List JVal)
  | obj (fields : List (String × JVal))
  | null

/-- State of the on-disk config file as `_load` encounters it:
absent (`CONFIG_FILE.exists()` false), unreadable-or-unparseable
(`read_text` or `json.loads` raises), or parsed to a JSON value. -/
inductive SettingsFile where
  | missing
  | malformed
  | parsed (v : JVal)

/-- The Python exceptions the load path can raise past a given point. -/
inductive PyError where
  | attributeError   -- `d.get` on a parsed non-dict value
  | typeError        -- `int(...)` of a list/dict/null, `QColor(...)` of a non-string
  | valueError       -- `int(...)` of a non-numeric string
  deriving DecidableEq, Repr

/-- `d.get(k)` on a dict built by `json.loads`: later duplicate keys
overwrite earlier ones. -/
def objGet (fields : List (String × JVal)) (k : String) : Option JVal :=
  fields.foldl (fun acc p => if p.1 = k then some p.2 else acc) none

/-- Python truthiness of a JSON-derived value, as tested by
`if pos_list := d.get("pos"):` (where `d.get` of an absent key gives
`None`, which is falsy). -/
def JVal.truthy : JVal → Bool
  | .num q => q ≠ 0
  | .str s => s ≠ ""
  | .bool b => b
  | .arr xs => ¬ xs.isEmpty
  | .obj fs => ¬ fs.isEmpty
  | .null => false

/-- Truncation toward zero, Python's `int()` applied to a float. -/
def ratTrunc (q : Rat) : Int :=
  if q ≥ 0 then ⌊q⌋ else ⌈q⌉

/-- `int(...)` of a string: optional sign followed by digits (surrounding
whitespace not modelled — no caller produces it), else `ValueError`. -/
def strToInt (s : String) : Except PyError Int :=
  match s.toList with
  | '-' :: ds =>
    if ds ≠ [] ∧ ds.all Char.isDigit then
      .ok (-(Int.ofNat (ds.foldl (fun a c => a * 10 + (c.toNat - 48)) 0)))
    else .error .valueError
  | ds =>
    if ds ≠ [] ∧ ds.all Char.isDigit then
      .ok (Int.ofNat (ds.foldl (fun a c => a * 10 + (c.toNat - 48)) 0))
    else .error .valueError

/-- Python `int(x)` for a JSON-derived `x`: floats truncate toward zero,
bools are 0/1, numeric strings parse (`ValueError` otherwise), and
list/dict/null raise `TypeError`. -/
def pyInt : JVal → Except PyError Int
  | .num q => .ok (ratTrunc q)
  | .bool b => .ok (if b then 1 else 0)
  | .str s => strToInt s
  | .arr _ => .error .typeError
  | .obj _ => .error .typeError
  | .null => .error .typeError

/-- A numeric field of `_load`: `self.f = d.get(k, default)`.  An absent key
yields the default.  A present non-numeric value is assigned raw by Python
(dynamic typing, no exception); the typed embedding keeps the default in
that case — the difference is inside `self` only and unobservable for
well-typed files, which is all the claims quantify over. -/
def getNum (fields : List (String × JVal)) (k : String) (dflt : Rat) : Rat :=
  match objGet fields k with
  | some (.num q) => q
  | some _ => dflt
  | none => dflt

/-- A boolean field of `_load`, same convention as `getNum`. -/
def getBool (fields : List (String × JVal)) (k : String) (dflt : Bool) : Bool :=
  match objGet fields k with
  | some (.bool b) => b
  | some _ => dflt
  | none => dflt

/-- The `pos` block of `_load` (lines 391-402): if `d.get("pos")` is truthy,
a list of length 2, and both `int(...)` conversions succeed, the window
moves there; a `ValueError` is caught by the inner `except ValueError` and
the position is left alone; any other exception (e.g. `TypeError` from
`int(None)`) escapes this block — it is caught by `_load`'s outer
`except Exception`, but nothing runs after this block, so the state kept is
the same. -/
def loadPosVal (current : Int × Int) (fields : List (String × JVal)) :
    (Int × Int) × Option PyError :=
  match objGet fields "pos" with
  | none => (current, none)
  | some v =>
    if v.truthy then
      match v with
      | .arr [a, b] =>
        match pyInt a, pyInt b with
        | .ok x, .ok y => ((x, y), none)
        | .error .valueError, _ => (current, none)      -- caught by `except ValueError`
        | .ok _, .error .valueError => (current, none)  -- caught by `except ValueError`
        | .error e, _ => (current, some e)
        | _, .error e => (current, some e)
      | _ => (current, none)  -- not a 2-element list: warning branch, no move
    else (current, none)

/-- The `pos` block acting on the widget state: only the window position is
written (`self.move(...)`). -/
def loadPos (st : ClockState) (fields : List (String × JVal)) :
    ClockState × Option PyError :=
  let r := loadPosVal st.pos fields
  ({ st with pos := r.1 }, r.2)

/-- Body of `_load`'s outer `try` after `json.loads` succeeded (lines
384-402): field-by-field `d.get` with the current value as default
(`manual_offset` defaults to the literal `0.0`), then the `pos` block.
A parsed non-dict value raises `AttributeError` at the first `d.get`,
before any field is written.  `QColor(...)` of a present non-string value
raises (overload mismatch) after the three numeric fields were written. -/
def loadBody (st : ClockState) (v : JVal) : ClockState × Option PyError :=
  match v with
  | .obj fields =>
    let st := { st with time_pt := getNum fields "font" st.time_pt }
    let st := { st with opacity := getNum fields "opacity" st.opacity }
    let st := { st with spacing := getNum fields "spacing" st.spacing }
    match objGet fields "color" with
    | some (.str _) | none =>
      let colorArg := match objGet fields "color" with
        | some (.str s) => s
        | _ => st.color.name
      let st := { st with color := QColor_fromString colorArg }
      let st := { st with topmost := getBool fields "top" st.topmost }
      let st := { st with manual_offset := getNum fields "offset" 0 }
      loadPos st fields
    | some _ => (st, some .typeError)
  | _ => (st, some .attributeError)

/-- `DigitalClock._load` (lines 370-415).  The second component is the
exception that propagates to the caller: the outer
`except json.JSONDecodeError` / `except Exception` clauses catch
everything the body can raise, keeping whatever fields were already
assigned (for a malformed file nothing was). -/
def loadFull (st : ClockState) (f : SettingsFile) : ClockState × Option PyError :=
  match f with
  | .missing => (st, none)      -- `CONFIG_FILE.exists()` false: keep defaults
  | .malformed => (st, none)    -- read/parse raised; caught, nothing was assigned
  | .parsed v => ((loadBody st v).1, none)  -- any body exception is caught

/-- The state `_load` leaves `self` in. -/
def loadSettings (st : ClockState) (f : SettingsFile) : ClockState :=
  (loadFull st f).1

/-- The `data` dict `_save` builds and serializes (lines 355-363): exactly
the seven keys, in this order; `offset` holds `self.manual_offset`; the
network offset `self.offset` is not read. -/
def saveData (st : ClockState) : List (String × JVal) :=
  [("font", .num st.time_pt),
   ("opacity", .num st.opacity),
   ("spacing", .num st.spacing),
   ("color", .str st.color.name),
   ("top", .bool st.topmost),
   ("offset", .num st.manual_offset),
   ("pos", .arr [.num (st.pos.1 : Rat), .num (st.pos.2 : Rat)])]

/-- Whether the `CONFIG_FILE.write_text(json.dumps(...))` call succeeds or
raises (I/O or serialization error). -/
inductive WriteOutcome where
  | ok
  | ioError
  deriving DecidableEq, Repr

/-- `DigitalClock._save` (lines 349-368): build `data` from `self` and
overwrite the file.  `self` is only read, never written.  The whole body is
inside `try/except Exception`, so the third component — the exception that
propagates to the caller — is `none` on both outcomes; on failure the disk
keeps its previous content. -/
def saveRun (st : ClockState) (disk : Option (List (String × JVal)))
    (w : WriteOutcome) :
    ClockState × Option (List (String × JVal)) × Option PyError :=
  match w with
  | .ok => (st, some (saveData st), none)
  | .ioError => (st, disk, none)   -- raised, caught by `except Exception`

/-! ## Helper lemmas -/

/-- Printing then reading one hex digit is the identity below 16. -/
theorem hexDigitVal_hexDigit : ∀ d : Nat, d < 16 → hexDigitVal (hexDigit d) = some d := by
  decide

/-- Reparsing `QColor.name()` recovers the color: `QColor(c.name())` has the
same RGB value as `c`. -/
theorem QColor_name_roundtrip (c : Color) : QColor_fromString c.name = c := by
  obtain ⟨⟨r, hr⟩, ⟨g, hg⟩, ⟨b, hb⟩⟩ := c
  have h1 := hexDigitVal_hexDigit (r / 16) (by omega)
  have h2 := hexDigitVal_hexDigit (r % 16) (by omega)
  have h3 := hexDigitVal_hexDigit (g / 16) (by omega)
  have h4 := hexDigitVal_hexDigit (g % 16) (by omega)
  have h5 := hexDigitVal_hexDigit (b / 16) (by omega)
  have h6 := hexDigitVal_hexDigit (b % 16) (by omega)
  simp only [QColor_fromString, Color.name, hexByte, List.cons_append, List.nil_append,
    String.toList]
  rw [h1, h2, h3, h4, h5, h6]
  have er : r / 16 * 16 + r % 16 = r := by omega
  have eg : g / 16 * 16 + g % 16 = g := by omega
  have eb : b / 16 * 16 + b % 16 = b := by omega
  simp only [er, eg, eb, Color.mk.injEq]
  refine ⟨?_, ?_, ?_⟩ <;>
    (apply Fin.ext; simp [Fin.ofNat']; omega)

/-- Python `int()` of a float that is an integer is that integer. -/
theorem ratTrunc_intCast (x : Int) : ratTrunc (x : Rat) = x := by
  unfold ratTrunc
  split <;> simp

/-- Closed form of the sync thread's control point: even steps run attempts,
odd steps sleep. -/
theorem loopPhaseAt_closed (k : Nat) :
    loopPhaseAt k = if k % 2 = 0 then .attempting (k / 2) else .sleeping (k / 2) := by
  induction k with
  | zero => rfl
  | succ k ih =>
    rw [loopPhaseAt, ih]
    by_cases h : k % 2 = 0
    · have h1 : (k + 1) % 2 = 1 := by omega
      have h2 : (k + 1) / 2 = k / 2 := by omega
      simp [h, h1, h2, loopStep]
    · have h1 : (k + 1) % 2 = 0 := by omega
      have h2 : (k + 1) / 2 = k / 2 + 1 := by omega
      simp [h, h1, h2, loopStep]

/-! ## Claims -/

/-- Claim C1, counterexample.  The claim says a failed sync attempt leaves
the network offset field equal to its value before the attempt.  It does
not: with a prior offset of 5 seconds, a timeout (with both the fallback
clock reading and the loop's post-fetch reading at instant 1000) leaves the
offset at 0, not 5 — `fetch_ntp` returned the fallback local time and the
loop overwrote the field with the near-zero difference. -/
theorem failed_sync_changes_offset_cex :
    (ntpLoopBody { defaultState with offset := 5 } .timeout 1000 1000).offset ≠
      ({ defaultState with offset := 5 } : ClockState).offset := by
  norm_num [ntpLoopBody, fetch_ntp, defaultState]

/-- Claim C1, amended.  For every synchronization attempt that fails
(timeout, connection/transport error, missing `Date` header, or a header
that fails to parse), the network offset field after the attempt equals the
fallback local UTC reading taken inside `fetch_ntp` minus the local UTC
reading the loop takes after the fetch returns — generally not its prior
value; no other field changes, the failure does not raise, and the loop
proceeds to its unconditional sleep and then to the next attempt. -/
theorem failed_sync_overwrites_offset (st : ClockState) (o : FetchOutcome)
    (h : o.isFailure = true) (tFallback tAfter : Rat) (n : Nat) :
    ntpLoopBody st o tFallback tAfter = { st with offset := tFallback - tAfter } ∧
    loopStep (.attempting n) = .sleeping n ∧
    loopStep (.sleeping n) = .attempting (n + 1) := by
  refine ⟨?_, rfl, rfl⟩
  cases o <;> simp_all [ntpLoopBody, fetch_ntp, FetchOutcome.isFailure]

/-- Claim C1, amended, witness: a timed-out attempt with fallback reading 50
and post-fetch reading 70 sets the offset to −20. -/
theorem failed_sync_overwrites_offset_witness :
    FetchOutcome.isFailure .timeout = true ∧
    ntpLoopBody defaultState .timeout 50 70 = { defaultState with offset := 50 - 70 } :=
  ⟨rfl, (failed_sync_overwrites_offset defaultState .timeout rfl 50 70 0).1⟩

/-- Claim C2, counterexample.  The claim says a successful sync with server
instant `S` sets the offset to `S` minus the local instant recorded before
the HTTP request was issued.  It does not: with server instant 100, local
instant 10 before the request and 20 after it, the offset becomes
`100 − 20 = 80`, not `100 − 10 = 90` — the source takes no clock reading
before the request at all. -/
theorem success_offset_before_cex :
    (ntpIterationTimed defaultState (.ok 100) 10 15 20).offset ≠ 100 - 10 := by
  norm_num [ntpIterationTimed, ntpLoopBody, fetch_ntp]

/-- Claim C2, amended.  For every synchronization attempt that succeeds with
server instant `S`, the network offset field is set to `S` minus the local
UTC instant read after `fetch_ntp` returned (`current_utc` in `_ntp_loop`),
whatever the clock showed when the request was issued. -/
theorem success_offset_uses_post_fetch_reading (st : ClockState)
    (s tBefore tFallback tAfter : Rat) :
    ntpIterationTimed st (.ok s) tBefore tFallback tAfter =
      { st with offset := s - tAfter } := rfl

/-- Claim C3.  For every (network offset, manual offset, system instant),
`_now` returns the system instant plus the network offset plus the manual
offset, expressed in the fixed UTC+8 display zone.  `clockNow` is a plain
function of the state and the clock reading: no side effects, no failure
mode. -/
theorem display_time_is_offset_sum (st : ClockState) (systemUtc : Rat) :
    clockNow st systemUtc =
      { instant := systemUtc + st.offset + st.manual_offset, zoneHours := 8 } := by
  simp [clockNow, add_assoc]

/-- Claim C4.  Loading a settings file that is a JSON object with an unknown
extra key (anywhere in the object) and with `opacity` absent yields the
file's present well-typed values for the keys it contains, keeps the
in-memory default for `opacity` only, and silently ignores the unknown
key (the result does not depend on `extraKey` or `extraVal`). -/
theorem load_merges_field_by_field (st : ClockState)
    (qFont qSpacing qOffset : Rat) (sColor : String) (bTop : Bool) (x y : Int)
    (extraKey : String) (extraVal : JVal)
    (hextra : extraKey ∉
      (["font", "opacity", "spacing", "color", "top", "offset", "pos"] : List String)) :
    loadSettings st (.parsed (.obj
      [("font", .num qFont), ("spacing", .num qSpacing), (extraKey, extraVal),
       ("color", .str sColor), ("top", .bool bTop), ("offset", .num qOffset),
       ("pos", .arr [.num (x : Rat), .num (y : Rat)])])) =
      { st with time_pt := qFont, spacing := qSpacing,
                color := QColor_fromString sColor, topmost := bTop,
                manual_offset := qOffset, pos := (x, y) } := by
  simp only [List.mem_cons, List.not_mem_nil, or_false] at hextra
  push_neg at hextra
  obtain ⟨h1, h2, h3, h4, h5, h6, h7⟩ := hextra
  simp [loadSettings, loadFull, loadBody, objGet, getNum, getBool,
        loadPos, loadPosVal, JVal.truthy, pyInt, ratTrunc_intCast,
        h1, h2, h3, h4, h5, h6, h7]

/-- Claim C4, witness: a concrete file with unknown key "background" and no
"opacity" loads to the file's values merged over the defaults, with opacity
still 90. -/
theorem load_merges_field_by_field_witness :
    ("background" ∉
      (["font", "opacity", "spacing", "color", "top", "offset", "pos"] : List String)) ∧
    loadSettings defaultState (.parsed (.obj
      [("font", .num 12), ("spacing", .num 4), ("background", .str "blue"),
       ("color", .str "#102030"), ("top", .bool false), ("offset", .num 9),
       ("pos", .arr [.num ((3 : Int) : Rat), .num ((4 : Int) : Rat)])])) =
      { defaultState with time_pt := 12, spacing := 4,
                          color := QColor_fromString "#102030", topmost := false,
                          manual_offset := 9, pos := ((3 : Int), (4 : Int)) } :=
  ⟨by decide,
   load_merges_field_by_field defaultState 12 4 9 "#102030" false 3 4 "background"
     (.str "blue") (by decide)⟩

/-- Claim C5.  Settings round-trip: saving any populated state and loading
the saved object back (into any in-memory state) recovers every settings
field — font size, opacity, spacing, color, topmost flag, manual offset,
window position; only the network offset field, which is not part of the
settings record, keeps the value it had in the loading state.  And loading
with no settings file present returns the documented defaults without
raising. -/
theorem settings_roundtrip (st0 st : ClockState) :
    loadSettings st0 (.parsed (.obj (saveData st))) = { st with offset := st0.offset } ∧
    loadSettings defaultState .missing = defaultState := by
  refine ⟨?_, rfl⟩
  simp [loadSettings, loadFull, loadBody, saveData, objGet, getNum, getBool,
        loadPos, loadPosVal, JVal.truthy, pyInt, QColor_name_roundtrip, ratTrunc_intCast]

/-- Claim C6.  The sync loop alternates forever between one attempt and one
600-second sleep: the pause after every attempt is 600 seconds whatever the
attempt's duration or outcome (outcomes do not even enter the schedule),
attempt `n` occurs at control step `2n` for every `n` (the loop never
terminates), the sleep that follows it at step `2n + 1`, and no other step
runs attempt `n` — so attempts are strictly sequential and there is exactly
one per interval. -/
theorem sync_loop_schedule (attemptDur : Nat → Rat) (n : Nat) :
    phaseDuration attemptDur (.sleeping n) = 600 ∧
    loopPhaseAt (2 * n) = .attempting n ∧
    loopPhaseAt (2 * n + 1) = .sleeping n ∧
    (∀ k, loopPhaseAt k = .attempting n → k = 2 * n) := by
  have e1 : 2 * n % 2 = 0 := by omega
  have e2 : 2 * n / 2 = n := by omega
  have e3 : (2 * n + 1) % 2 = 1 := by omega
  have e4 : (2 * n + 1) / 2 = n := by omega
  refine ⟨rfl, ?_, ?_, ?_⟩
  · rw [loopPhaseAt_closed]; simp [e1, e2]
  · rw [loopPhaseAt_closed]; simp [e3, e4]
  · intro k hk
    rw [loopPhaseAt_closed] at hk
    by_cases h : k % 2 = 0
    · simp [h] at hk; omega
    · simp [h] at hk

/-- Claim C6, witness: with unit-duration attempts, the sleep after attempt
3 lasts 600 seconds and control step 6 runs attempt 3. -/
theorem sync_loop_schedule_witness :
    phaseDuration (fun _ => 1) (.sleeping 3) = 600 ∧
    loopPhaseAt (2 * 3) = .attempting 3 :=
  ⟨(sync_loop_schedule (fun _ => 1) 3).1, (sync_loop_schedule (fun _ => 1) 3).2.1⟩

/-- Claim C7.  For every settings-file state (absent, unreadable or
malformed — both collapsed into `malformed` — or parsed JSON of any shape),
`_load` propagates no exception to its caller (the second component, the
escaping exception, is always `none`); on a missing or malformed file the
in-memory state, the defaults at startup, is left untouched. -/
theorem load_total_defaults (st : ClockState) (f : SettingsFile) :
    (loadFull st f).2 = none ∧
    loadFull st .missing = (st, none) ∧
    loadFull st .malformed = (st, none) := by
  refine ⟨?_, rfl, rfl⟩
  cases f <;> rfl

/-- Claim C8.  A save attempt whose write raises is swallowed: no exception
propagates (third component `none`), the in-memory settings state is exactly
what it was before the attempt, and the on-disk contents are unchanged;
and on every outcome `_save` leaves the in-memory state alone and raises
nothing. -/
theorem save_failure_swallowed (st : ClockState) (disk : Option (List (String × JVal))) :
    saveRun st disk .ioError = (st, disk, none) ∧
    (∀ w, (saveRun st disk w).1 = st ∧ (saveRun st disk w).2.2 = none) := by
  refine ⟨rfl, fun w => ?_⟩
  cases w <;> exact ⟨rfl, rfl⟩

/-- Claim C9.  Every save writes exactly the keys `font`, `opacity`,
`spacing`, `color`, `top`, `offset`, `pos`, in that order; the `offset` key
holds the user's manual offset; and the serialized object is invariant under
the network offset field — `self.offset` is never read by `_save`, so the
network offset reaches disk through no operation. -/
theorem save_writes_manual_offset_only (st : ClockState) (netOffset : Rat) :
    (saveData st).map Prod.fst =
      ["font", "opacity", "spacing", "color", "top", "offset", "pos"] ∧
    objGet (saveData st) "offset" = some (.num st.manual_offset) ∧
    saveData { st with offset := netOffset } = saveData st := by
  exact ⟨rfl, rfl, rfl⟩

/-- Claim C10.  The time-fetch step is total and never signals failure: on
every failure path it returns the local UTC clock reading taken at the
moment of fallback, and the loop body run on a failed attempt is
indistinguishable from one run on a successful attempt whose server instant
equals that fallback reading — it computes the offset from the fallback
value. -/
theorem fetch_ntp_total_fallback (o : FetchOutcome) (h : o.isFailure = true)
    (st : ClockState) (tFallback tAfter : Rat) :
    fetch_ntp o tFallback = tFallback ∧
    (ntpLoopBody st o tFallback tAfter).offset = tFallback - tAfter ∧
    ntpLoopBody st o tFallback tAfter = ntpLoopBody st (.ok tFallback) tFallback tAfter := by
  cases o <;> simp_all [fetch_ntp, ntpLoopBody, FetchOutcome.isFailure]

/-- Claim C10, witness: a connection error with fallback reading 123 makes
`fetch_ntp` return 123. -/
theorem fetch_ntp_total_fallback_witness :
    FetchOutcome.isFailure .connectionError = true ∧
    fetch_ntp .connectionError 123 = 123 :=
  ⟨rfl, (fetch_ntp_total_fallback .connectionError rfl defaultState 123 456).1⟩

end TimeClock
